import Mathlib

/-!
# pointer-lock: the grab state machine and its event loop

A shallow embedding of `pointer-lock.c`.  The process-scope globals (`root`,
`cursor`, `xcberr`, `state`) are the fields of `World`; the display server
behind `conn` is a `Server`, an oracle that fixes the outcome of the n-th call
of each kind.  Every request sent to the server and every diagnostic written
with `error(3)` is appended to `World.trace`.

Not modelled: a connection that breaks in the middle of a request (where
`xcb_grab_pointer_reply` yields neither a reply nor an error).
-/

namespace PointerLock

/-! ## Constants of the X protocol headers -/

def XCB_KEY_PRESS : Nat := 2
def XCB_KEY_RELEASE : Nat := 3
def XCB_GRAB_STATUS_SUCCESS : Nat := 0
def XCB_KEY_BUT_MASK_MOD_4 : Nat := 64

/-! ## Data model -/

inductive lock_mode_t where
  | MODE_SWITCH
  | MODE_TOGGLE
deriving DecidableEq, Repr

/-- The struct `state_t`: `pointer_lock` is a C `int` used as a truth value,
keycodes are `uint8_t`, modifier masks are `uint16_t`. -/
structure state_t where
  mode : lock_mode_t
  pointer_lock : Int
  keycode_lock : Nat
  keycode_unlock : Nat
  modmask_lock : Nat
  modmask_unlock : Nat
deriving DecidableEq, Repr

/-- The fields of an `xcb_generic_event_t` that the program reads, the last two
through the cast to `xcb_key_press_event_t`. -/
structure xcb_generic_event_t where
  response_type : Nat
  detail : Nat
  state : Nat
deriving DecidableEq, Repr

/-- What the process does that is visible from outside: requests to the display
server, and diagnostics (format string and arguments of `error(0, 0, ...)`). -/
inductive Act where
  | create_pixmap (pid drawable : Nat)
  | create_gc (gcid drawable : Nat)
  | poly_fill_rectangle (drawable gc : Nat)
  | create_cursor (cid source : Nat)
  | grab_key (grab_window modifiers key : Nat)
  | grab_pointer (grab_window cursor : Nat)
  | ungrab_pointer
  | wait_for_event
  | diag (fmt : String) (args : List Nat)
deriving DecidableEq, Repr

/-- Outcome of `xcb_grab_pointer_reply`: a protocol error with its code, or a
reply carrying a grab status. -/
inductive GrabReply where
  | error (error_code : Nat)
  | reply (status : Nat)
deriving DecidableEq, Repr

/-- The display server as seen through `conn`: the root window, and the outcome
of the n-th call of each kind.  `request_check n = none` means the n-th checked
request succeeded, `some code` that it failed with that error code;
`wait_for_event n = none` is a failed fetch. -/
structure Server where
  root : Nat
  generate_id : Nat → Nat
  request_check : Nat → Option Nat
  grab_pointer_reply : Nat → GrabReply
  wait_for_event : Nat → Option xcb_generic_event_t

/-- The globals of the program, the trace of what it has done, and how many
calls of each kind it has made on the connection. -/
structure World where
  root : Nat
  cursor : Nat
  xcberr : Option Nat
  state : state_t
  trace : List Act
  ids : Nat
  checked : Nat
  grabbed : Nat
  fetched : Nat
deriving DecidableEq, Repr

/-- Zero-initialised statics at process start. -/
def World.init : World :=
  { root := 0, cursor := 0, xcberr := none,
    state := { mode := .MODE_SWITCH, pointer_lock := 0, keycode_lock := 0,
               keycode_unlock := 0, modmask_lock := 0, modmask_unlock := 0 },
    trace := [], ids := 0, checked := 0, grabbed := 0, fetched := 0 }

/-! ## Library calls and macros -/

/-- The macro `ERROR`: write a diagnostic, evaluate to 1. -/
def ERROR (fmt : String) (args : List Nat) (w : World) : World × Int :=
  ({ w with trace := w.trace ++ [Act.diag fmt args] }, 1)

/-- The macro `INFO`: write a diagnostic. -/
def INFO (fmt : String) (args : List Nat) (w : World) : World :=
  { w with trace := w.trace ++ [Act.diag fmt args] }

def xcb_generate_id (srv : Server) (w : World) : World × Nat :=
  ({ w with ids := w.ids + 1 }, srv.generate_id w.ids)

/-- The pattern `xcberr = xcb_request_check(conn, <checked request>)`. -/
def xcb_request_check (srv : Server) (req : Act) (w : World) : World :=
  { w with trace := w.trace ++ [req],
           checked := w.checked + 1,
           xcberr := srv.request_check w.checked }

/-- The call `xcb_wait_for_event(conn)`. -/
def xcb_wait_for_event (srv : Server) (w : World) : World × Option xcb_generic_event_t :=
  ({ w with trace := w.trace ++ [Act.wait_for_event], fetched := w.fetched + 1 },
   srv.wait_for_event w.fetched)

/-! ## The program -/

def get_root (srv : Server) (w : World) : World :=
  { w with root := srv.root }

/-- Only called when `xcberr` is set. -/
def xcberr_free (w : World) : World × Nat :=
  let res := w.xcberr.getD 0
  ({ w with xcberr := none }, res)

def create_pixmap_gc (srv : Server) (pid : Nat) (w : World) : World × Int × Nat :=
  let (w1, gcid) := xcb_generate_id srv w
  let w2 := xcb_request_check srv (Act.create_gc gcid pid) w1
  if w2.xcberr.isSome then
    let (w3, code) := xcberr_free w2
    let (w4, rc) := ERROR "%d: xcb_create_gc" [code] w3
    (w4, rc, gcid)
  else
    (w2, 0, gcid)

def create_cursor_pixmap (srv : Server) (w : World) : World × Int × Nat :=
  let (w1, pid) := xcb_generate_id srv w
  let w2 := xcb_request_check srv (Act.create_pixmap pid w1.root) w1
  if w2.xcberr.isSome then
    let (w3, code) := xcberr_free w2
    let (w4, rc) := ERROR "%d: xcb_create_pixmap" [code] w3
    (w4, rc, pid)
  else
    (w2, 0, pid)

def fill_cursor_pixmap (srv : Server) (pid gcid : Nat) (w : World) : World × Int :=
  let w1 := xcb_request_check srv (Act.poly_fill_rectangle pid gcid) w
  if w1.xcberr.isSome then
    let (w2, code) := xcberr_free w1
    ERROR "%d, xcb_poly_fill_rectangle" [code] w2
  else
    (w1, 0)

/-- The out-parameter `cid` is the global `cursor` at the only call site. -/
def create_cursor (srv : Server) (pid : Nat) (w : World) : World × Int :=
  let (w1, cid) := xcb_generate_id srv w
  let w2 := { w1 with cursor := cid }
  let w3 := xcb_request_check srv (Act.create_cursor cid pid) w2
  if w3.xcberr.isSome then
    let (w4, code) := xcberr_free w3
    ERROR "%d: xcb_create_cursor" [code] w4
  else
    (w3, 0)

def init_cursor (srv : Server) (w : World) : World × Int :=
  let (w1, r1, pid) := create_cursor_pixmap srv w
  if r1 ≠ 0 then ERROR "init_cursor" [] w1 else
  let (w2, r2, gcid) := create_pixmap_gc srv pid w1
  if r2 ≠ 0 then ERROR "init_cursor" [] w2 else
  let (w3, r3) := fill_cursor_pixmap srv pid gcid w2
  if r3 ≠ 0 then ERROR "init_cursor" [] w3 else
  let (w4, r4) := create_cursor srv pid w3
  if r4 ≠ 0 then ERROR "init_cursor" [] w4 else
  (w4, 0)

def grab_key (srv : Server) (modmask keycode : Nat) (w : World) : World × Int :=
  let w1 := xcb_request_check srv (Act.grab_key w.root modmask keycode) w
  if w1.xcberr.isSome then
    let (w2, code) := xcberr_free w1
    ERROR "%d: xcb_grab_key" [code] w2
  else
    (w1, 0)

def grab_pointer (srv : Server) (w : World) : World × Int :=
  let w1 := { w with trace := w.trace ++ [Act.grab_pointer w.root w.cursor],
                     grabbed := w.grabbed + 1 }
  match srv.grab_pointer_reply w.grabbed with
  | GrabReply.error error_code =>
    let w2 := { w1 with xcberr := some error_code }
    let (w3, code) := xcberr_free w2
    ERROR "[error] %d: xcb_grab_pointer" [code] w3
  | GrabReply.reply status =>
    let w2 := { w1 with xcberr := none }
    if status ≠ XCB_GRAB_STATUS_SUCCESS then
      ERROR "[status] %d: xcb_grab_pointer" [status] w2
    else
      (w2, 0)

def ungrab_pointer (srv : Server) (w : World) : World × Int :=
  let w1 := xcb_request_check srv Act.ungrab_pointer w
  if w1.xcberr.isSome then
    let (w2, code) := xcberr_free w1
    ERROR "%d: xcb_ungrab_pointer" [code] w2
  else
    (w1, 0)

def pointer_lock (srv : Server) (w : World) : World :=
  let w1 := (grab_pointer srv w).1
  { w1 with state := { w1.state with pointer_lock := 1 } }

def pointer_unlock (srv : Server) (w : World) : World :=
  let w1 := (ungrab_pointer srv w).1
  { w1 with state := { w1.state with pointer_lock := 0 } }

def pointer_toggle (srv : Server) (w : World) : World :=
  if w.state.pointer_lock ≠ 0 then pointer_unlock srv w else pointer_lock srv w

/-- The switch yields `some` where the C code returns from inside it and `none`
where it breaks out to the diagnostic. -/
def key_event (srv : Server) (event : xcb_generic_event_t) (w : World) : World :=
  let modmask := event.state
  let keycode := event.detail
  let returned : Option World :=
    match w.state.mode with
    | lock_mode_t.MODE_SWITCH =>
      if modmask = w.state.modmask_lock ∧ keycode = w.state.keycode_lock then
        some (pointer_lock srv w)
      else if modmask = w.state.modmask_unlock ∧ keycode = w.state.keycode_unlock then
        some (pointer_unlock srv w)
      else
        none
    | lock_mode_t.MODE_TOGGLE =>
      if modmask = w.state.modmask_lock ∧ keycode = w.state.keycode_lock then
        some (pointer_toggle srv w)
      else
        none
  match returned with
  | some w1 => w1
  | none => INFO "%d + %d: Unexpected keys combination: key_event" [modmask, keycode] w

/-- One call of `loop`: nonzero when the fetch failed. -/
def loop (srv : Server) (w : World) : World × Int :=
  match xcb_wait_for_event srv w with
  | (w1, none) => ERROR "xcb_wait_for_event" [] w1
  | (w1, some event) =>
    let w2 :=
      if event.response_type = XCB_KEY_PRESS then key_event srv event w1
      else if event.response_type = XCB_KEY_RELEASE then w1
      else INFO "%d: Unexpected event: xcb_wait_for_event" [event.response_type] w1
    (w2, 0)

/-- The statement `while (!loop());` with a bound on the number of iterations:
`none` when the bound is reached before `loop` returns nonzero. -/
def main_while (srv : Server) : Nat → World → Option World
  | 0, _ => none
  | fuel + 1, w =>
    let (w1, rc) := loop srv w
    if rc = 0 then main_while srv fuel w1 else some w1

/-- The four binding constants assigned at the top of `main`. -/
structure Bindings where
  modmask_lock : Nat
  keycode_lock : Nat
  modmask_unlock : Nat
  keycode_unlock : Nat
deriving DecidableEq, Repr

/-- The bindings compiled into the program: super + m for both. -/
def Bindings.compiled : Bindings :=
  { modmask_lock := XCB_KEY_BUT_MASK_MOD_4, keycode_lock := 58,
    modmask_unlock := XCB_KEY_BUT_MASK_MOD_4, keycode_unlock := 58 }

/-- The part of `main` before the loop, with the binding constants as a
parameter: `(w, 0)` when the loop is to be entered in world `w`, `(w, rc)` with
`rc ≠ 0` when `main` returns `rc` early. -/
def main_startup (b : Bindings) (srv : Server) (w : World) : World × Int :=
  let w1 := get_root srv w
  let s1 := { w1.state with modmask_lock := b.modmask_lock }
  let s2 := { s1 with keycode_lock := b.keycode_lock }
  let s3 := { s2 with modmask_unlock := b.modmask_unlock }
  let s4 := { s3 with keycode_unlock := b.keycode_unlock }
  let s5 := { s4 with mode :=
    if s4.modmask_unlock = s4.modmask_lock ∧ s4.keycode_unlock = s4.keycode_lock
    then lock_mode_t.MODE_TOGGLE else lock_mode_t.MODE_SWITCH }
  let w2 := { w1 with state := s5 }
  let (w3, rc) := init_cursor srv w2
  if rc ≠ 0 then ERROR "main" [] w3 else
  let w4 := pointer_lock srv w3
  let w5 := (grab_key srv w4.state.modmask_lock w4.state.keycode_lock w4).1
  let w6 :=
    if w5.state.mode = lock_mode_t.MODE_SWITCH then
      (grab_key srv w5.state.modmask_unlock w5.state.keycode_unlock w5).1
    else w5
  (w6, 0)

/-- The function `main`: the exit status, or `none` when the loop is still
running after `fuel` iterations. -/
def main_with (b : Bindings) (srv : Server) (fuel : Nat) (w : World) : Option (World × Int) :=
  let (w1, rc) := main_startup b srv w
  if rc ≠ 0 then some (w1, rc) else
  match main_while srv fuel w1 with
  | none => none
  | some w2 => some (w2, 0)

def main (srv : Server) (fuel : Nat) : Option (World × Int) :=
  main_with Bindings.compiled srv fuel World.init

/-! ## Vocabulary of the statements -/

/-- The boolean the C code reads from `state.pointer_lock`. -/
def locked (w : World) : Bool := w.state.pointer_lock != 0

def Act.isRequest : Act → Bool
  | Act.diag _ _ => false
  | _ => true

/-- The requests sent to the server, in order, diagnostics left out. -/
def requests (t : List Act) : List Act := t.filter Act.isRequest

def matches_lock (s : state_t) (e : xcb_generic_event_t) : Prop :=
  e.state = s.modmask_lock ∧ e.detail = s.keycode_lock

def matches_unlock (s : state_t) (e : xcb_generic_event_t) : Prop :=
  e.state = s.modmask_unlock ∧ e.detail = s.keycode_unlock

instance (s : state_t) (e : xcb_generic_event_t) : Decidable (matches_lock s e) := by
  unfold matches_lock; infer_instance

instance (s : state_t) (e : xcb_generic_event_t) : Decidable (matches_unlock s e) := by
  unfold matches_unlock; infer_instance

/-- The four requests of the cursor pipeline, for a root window and the number
of identifiers generated before it starts. -/
def cursor_pipeline (srv : Server) (root ids : Nat) : List Act :=
  [Act.create_pixmap (srv.generate_id ids) root,
   Act.create_gc (srv.generate_id (ids + 1)) (srv.generate_id ids),
   Act.poly_fill_rectangle (srv.generate_id ids) (srv.generate_id (ids + 1)),
   Act.create_cursor (srv.generate_id (ids + 2)) (srv.generate_id ids)]

/-- The world after the assignments at the top of `main`, before `init_cursor`. -/
def configured (b : Bindings) (srv : Server) (w : World) : World :=
  { w with
    root := srv.root,
    state :=
      { mode :=
          if b.modmask_unlock = b.modmask_lock ∧ b.keycode_unlock = b.keycode_lock
          then lock_mode_t.MODE_TOGGLE else lock_mode_t.MODE_SWITCH,
        pointer_lock := w.state.pointer_lock,
        keycode_lock := b.keycode_lock,
        keycode_unlock := b.keycode_unlock,
        modmask_lock := b.modmask_lock,
        modmask_unlock := b.modmask_unlock } }

/-- Whether a key press equals the lock binding or the unlock binding. -/
def matches_binding (s : state_t) (e : xcb_generic_event_t) : Bool :=
  decide (matches_lock s e) || decide (matches_unlock s e)

/-- The diagnostic `key_event` writes for an event it does not recognise. -/
def unexpected_keys (e : xcb_generic_event_t) : Act :=
  Act.diag "%d + %d: Unexpected keys combination: key_event" [e.state, e.detail]

/-- Consecutive calls of `key_event`, one per key-press event, in order. -/
def key_events (srv : Server) : List xcb_generic_event_t → World → World
  | [], w => w
  | e :: es, w => key_events srv es (key_event srv e w)

/-- The world after `n` calls of `loop`, return values dropped. -/
def loop_iter (srv : Server) : Nat → World → World
  | 0, w => w
  | n + 1, w => loop_iter srv n (loop srv w).1

/-! ## Concrete inputs -/

/-- Key press super + m. -/
def press_m : xcb_generic_event_t := { response_type := 2, detail := 58, state := 64 }

/-- Key press super + n. -/
def press_n : xcb_generic_event_t := { response_type := 2, detail := 57, state := 64 }

/-- Key press super + x. -/
def press_x : xcb_generic_event_t := { response_type := 2, detail := 53, state := 64 }

/-- Key release super + m. -/
def release_m : xcb_generic_event_t := { response_type := 3, detail := 58, state := 64 }

/-- Five events, then the connection fails. -/
def sample_events : Nat → Option xcb_generic_event_t
  | 0 => some press_m
  | 1 => some release_m
  | 2 => some press_m
  | 3 => some { response_type := 12, detail := 0, state := 0 }
  | 4 => some press_x
  | _ => none

/-- A server on which every request succeeds. -/
def srv_ok : Server where
  root := 7
  generate_id := fun n => 100 + n
  request_check := fun _ => none
  grab_pointer_reply := fun _ => GrabReply.reply 0
  wait_for_event := sample_events

/-- A server on which the third checked request fails with code 9 and every
grab-pointer request gets the status 1 (already grabbed). -/
def srv_bad : Server where
  root := 7
  generate_id := fun n => 100 + n
  request_check := fun n => if n = 2 then some 9 else none
  grab_pointer_reply := fun _ => GrabReply.reply 1
  wait_for_event := sample_events

/-- Locked, TOGGLE mode, both bindings super + m. -/
def w_toggle : World :=
  { World.init with
    root := 7, cursor := 102,
    state := { mode := lock_mode_t.MODE_TOGGLE, pointer_lock := 1, keycode_lock := 58,
               keycode_unlock := 58, modmask_lock := 64, modmask_unlock := 64 } }

/-- Locked, SWITCH mode, lock on super + m, unlock on super + n. -/
def w_switch : World :=
  { World.init with
    root := 7, cursor := 102,
    state := { mode := lock_mode_t.MODE_SWITCH, pointer_lock := 1, keycode_lock := 58,
               keycode_unlock := 57, modmask_lock := 64, modmask_unlock := 64 } }

/-! ## Frame lemmas -/

theorem requests_append (t u : List Act) : requests (t ++ u) = requests t ++ requests u := by
  simp [requests]

theorem grab_pointer_frame (srv : Server) (w : World) :
    (grab_pointer srv w).1.state = w.state ∧
    (grab_pointer srv w).1.root = w.root ∧
    (grab_pointer srv w).1.cursor = w.cursor ∧
    (grab_pointer srv w).1.fetched = w.fetched ∧
    requests (grab_pointer srv w).1.trace
      = requests w.trace ++ [Act.grab_pointer w.root w.cursor] := by
  unfold grab_pointer
  cases srv.grab_pointer_reply w.grabbed with
  | error c => simp [ERROR, xcberr_free, requests, Act.isRequest]
  | reply st =>
    by_cases h : st = XCB_GRAB_STATUS_SUCCESS <;>
      simp [ERROR, h, requests, Act.isRequest]

theorem ungrab_pointer_frame (srv : Server) (w : World) :
    (ungrab_pointer srv w).1.state = w.state ∧
    (ungrab_pointer srv w).1.root = w.root ∧
    (ungrab_pointer srv w).1.cursor = w.cursor ∧
    (ungrab_pointer srv w).1.fetched = w.fetched ∧
    requests (ungrab_pointer srv w).1.trace = requests w.trace ++ [Act.ungrab_pointer] := by
  unfold ungrab_pointer xcb_request_check
  cases h : srv.request_check w.checked <;>
    simp [ERROR, xcberr_free, requests, Act.isRequest, h]

theorem pointer_lock_frame (srv : Server) (w : World) :
    (pointer_lock srv w).state = { w.state with pointer_lock := 1 } ∧
    (pointer_lock srv w).root = w.root ∧
    (pointer_lock srv w).cursor = w.cursor ∧
    (pointer_lock srv w).fetched = w.fetched ∧
    requests (pointer_lock srv w).trace
      = requests w.trace ++ [Act.grab_pointer w.root w.cursor] := by
  obtain ⟨h1, h2, h3, h4, h5⟩ := grab_pointer_frame srv w
  simp [pointer_lock, h1, h2, h3, h4, h5]

theorem pointer_unlock_frame (srv : Server) (w : World) :
    (pointer_unlock srv w).state = { w.state with pointer_lock := 0 } ∧
    (pointer_unlock srv w).root = w.root ∧
    (pointer_unlock srv w).cursor = w.cursor ∧
    (pointer_unlock srv w).fetched = w.fetched ∧
    requests (pointer_unlock srv w).trace = requests w.trace ++ [Act.ungrab_pointer] := by
  obtain ⟨h1, h2, h3, h4, h5⟩ := ungrab_pointer_frame srv w
  simp [pointer_unlock, h1, h2, h3, h4, h5]

/-- What `key_event` does in each of its cases. -/
theorem key_event_cases (srv : Server) (e : xcb_generic_event_t) (w : World) :
    key_event srv e w =
      if matches_lock w.state e then
        (if w.state.mode = lock_mode_t.MODE_SWITCH then pointer_lock srv w
         else if w.state.pointer_lock ≠ 0 then pointer_unlock srv w else pointer_lock srv w)
      else if w.state.mode = lock_mode_t.MODE_SWITCH ∧ matches_unlock w.state e then
        pointer_unlock srv w
      else
        INFO "%d + %d: Unexpected keys combination: key_event" [e.state, e.detail] w := by
  unfold key_event matches_lock matches_unlock pointer_toggle
  cases hm : w.state.mode <;> dsimp only <;> split_ifs <;> first | rfl | simp_all

theorem key_event_frame (srv : Server) (e : xcb_generic_event_t) (w : World) :
    (key_event srv e w).state
      = { w.state with pointer_lock := (key_event srv e w).state.pointer_lock } ∧
    (key_event srv e w).root = w.root ∧
    (key_event srv e w).cursor = w.cursor ∧
    (key_event srv e w).fetched = w.fetched := by
  obtain ⟨l1, l2, l3, l4, -⟩ := pointer_lock_frame srv w
  obtain ⟨u1, u2, u3, u4, -⟩ := pointer_unlock_frame srv w
  rw [key_event_cases]
  split_ifs <;> simp [l1, l2, l3, l4, u1, u2, u3, u4, INFO]

theorem key_event_config (srv : Server) (e e' : xcb_generic_event_t) (w : World) :
    (key_event srv e w).state.mode = w.state.mode ∧
    (matches_lock (key_event srv e w).state e' ↔ matches_lock w.state e') ∧
    (matches_unlock (key_event srv e w).state e' ↔ matches_unlock w.state e') := by
  have h := (key_event_frame srv e w).1
  refine ⟨by rw [h], ?_, ?_⟩
  · unfold matches_lock; rw [h]
  · unfold matches_unlock; rw [h]

theorem key_events_append (srv : Server) (es fs : List xcb_generic_event_t) (w : World) :
    key_events srv (es ++ fs) w = key_events srv fs (key_events srv es w) := by
  induction es generalizing w with
  | nil => rfl
  | cons e es ih => simp [key_events, ih]

/-- In SWITCH mode a lock-binding press on a locked state changes only the
trace, by one grab-pointer request and its diagnostics. -/
theorem key_events_lock (srv : Server) (es : List xcb_generic_event_t) (w : World)
    (hm : w.state.mode = lock_mode_t.MODE_SWITCH) (hl : w.state.pointer_lock = 1)
    (hes : ∀ e ∈ es, matches_lock w.state e) :
    (key_events srv es w).state = w.state ∧
    (key_events srv es w).root = w.root ∧
    (key_events srv es w).cursor = w.cursor ∧
    requests (key_events srv es w).trace
      = requests w.trace ++ List.replicate es.length (Act.grab_pointer w.root w.cursor) := by
  induction es generalizing w with
  | nil => simp [key_events]
  | cons e es ih =>
    have he : matches_lock w.state e := hes e (List.mem_cons_self _ _)
    obtain ⟨l1, l2, l3, -, l5⟩ := pointer_lock_frame srv w
    have hk : key_event srv e w = pointer_lock srv w := by
      rw [key_event_cases, if_pos he, if_pos hm]
    have hs : (pointer_lock srv w).state = w.state := by
      rw [l1, ← hl]
    have := ih (pointer_lock srv w) (by rw [hs, hm]) (by rw [hs, hl])
      (by intro e' he'; rw [hs]; exact hes e' (List.mem_cons_of_mem _ he'))
    simp only [key_events, hk]
    obtain ⟨i1, i2, i3, i4⟩ := this
    refine ⟨by rw [i1, hs], by rw [i2, l2], by rw [i3, l3], ?_⟩
    rw [i4, l5, l2, l3, List.length_cons, List.replicate_succ, List.append_assoc]
    rfl

/-- C3. Whatever the server answers, `pointer_lock` sends one grab-pointer
request and leaves `pointer_lock = 1`, `pointer_unlock` sends one
ungrab-pointer request and leaves `pointer_lock = 0`; the rest of the state is
untouched and the resulting state is the same under any two servers. -/
theorem pointer_lock_unlock_unconditional (srv srv' : Server) (w : World) :
    (pointer_lock srv w).state = { w.state with pointer_lock := 1 } ∧
    requests (pointer_lock srv w).trace
      = requests w.trace ++ [Act.grab_pointer w.root w.cursor] ∧
    (pointer_unlock srv w).state = { w.state with pointer_lock := 0 } ∧
    requests (pointer_unlock srv w).trace = requests w.trace ++ [Act.ungrab_pointer] ∧
    (pointer_lock srv w).state = (pointer_lock srv' w).state ∧
    (pointer_unlock srv w).state = (pointer_unlock srv' w).state := by
  obtain ⟨l1, -, -, -, l5⟩ := pointer_lock_frame srv w
  obtain ⟨u1, -, -, -, u5⟩ := pointer_unlock_frame srv w
  refine ⟨l1, l5, u1, u5, ?_, ?_⟩
  · rw [l1, (pointer_lock_frame srv' w).1]
  · rw [u1, (pointer_unlock_frame srv' w).1]

/-- C2. In TOGGLE mode two consecutive key presses equal to the lock binding
flip `locked` and flip it back, whatever the server answers; when
`pointer_lock` holds 0 or 1 the whole state is restored. -/
theorem toggle_involution (srv : Server) (w : World) (e1 e2 : xcb_generic_event_t)
    (hm : w.state.mode = lock_mode_t.MODE_TOGGLE)
    (h1 : matches_lock w.state e1) (h2 : matches_lock w.state e2) :
    locked (key_event srv e1 w) = !locked w ∧
    locked (key_events srv [e1, e2] w) = locked w ∧
    (w.state.pointer_lock = 0 ∨ w.state.pointer_lock = 1 →
      (key_events srv [e1, e2] w).state = w.state) := by
  have hns : w.state.mode ≠ lock_mode_t.MODE_SWITCH := by rw [hm]; decide
  obtain ⟨c1, c2, -⟩ := key_event_config srv e1 e2 w
  have h2' : matches_lock (key_event srv e1 w).state e2 := c2.2 h2
  have hns' : (key_event srv e1 w).state.mode ≠ lock_mode_t.MODE_SWITCH := by rw [c1]; exact hns
  have k2 := key_event_cases srv e2 (key_event srv e1 w)
  rw [if_pos h2', if_neg hns'] at k2
  have k1 := key_event_cases srv e1 w
  rw [if_pos h1, if_neg hns] at k1
  simp only [key_events, locked]
  rw [k2]
  by_cases hz : w.state.pointer_lock = 0
  · have s1 : (key_event srv e1 w).state = { w.state with pointer_lock := 1 } := by
      rw [k1, if_neg (by simp [hz])]; exact (pointer_lock_frame srv w).1
    have s2 := (pointer_unlock_frame srv (key_event srv e1 w)).1
    rw [if_pos (by rw [s1]; simp), s2, s1]
    refine ⟨by simp [hz], by simp [hz], fun _ => ?_⟩
    rw [← hz]
  · have s1 : (key_event srv e1 w).state = { w.state with pointer_lock := 0 } := by
      rw [k1, if_pos hz]; exact (pointer_unlock_frame srv w).1
    have s2 := (pointer_lock_frame srv (key_event srv e1 w)).1
    rw [if_neg (by rw [s1]; simp), s2, s1]
    refine ⟨by simp [hz], by simp [hz], fun h => ?_⟩
    rcases h with h | h
    · exact absurd h hz
    · rw [← h]

/-- C4. In either mode, key presses that equal neither binding change nothing
but the trace, to which each adds exactly its "Unexpected keys combination"
diagnostic: the state is kept and no request is sent. -/
theorem nonmatching_keys_inert (srv : Server) (es : List xcb_generic_event_t) (w : World)
    (hes : ∀ e ∈ es, ¬ matches_lock w.state e ∧ ¬ matches_unlock w.state e) :
    key_events srv es w = { w with trace := w.trace ++ es.map unexpected_keys } ∧
    (key_events srv es w).state = w.state ∧
    requests (key_events srv es w).trace = requests w.trace := by
  have main : key_events srv es w = { w with trace := w.trace ++ es.map unexpected_keys } := by
    induction es generalizing w with
    | nil => simp [key_events]
    | cons e es ih =>
      obtain ⟨hl, hu⟩ := hes e (List.mem_cons_self _ _)
      have hk : key_event srv e w = INFO
          "%d + %d: Unexpected keys combination: key_event" [e.state, e.detail] w := by
        rw [key_event_cases, if_neg hl, if_neg (fun h => hu h.2)]
      simp only [key_events, hk]
      rw [ih]
      · simp [INFO, unexpected_keys]
      · intro e' he'
        exact hes e' (List.mem_cons_of_mem _ he')
  refine ⟨main, by rw [main], ?_⟩
  rw [main]
  simp [requests, unexpected_keys, Act.isRequest]

/-- C6. In SWITCH mode with `pointer_lock = 1`, n key presses equal to the lock
binding send exactly n grab-pointer requests and no other request, and
`pointer_lock` is 1 after each of them, whatever the server answers. -/
theorem switch_lock_reissued (srv : Server) (es : List xcb_generic_event_t) (w : World)
    (hm : w.state.mode = lock_mode_t.MODE_SWITCH) (hl : w.state.pointer_lock = 1)
    (hes : ∀ e ∈ es, matches_lock w.state e) :
    requests (key_events srv es w).trace
      = requests w.trace ++ List.replicate es.length (Act.grab_pointer w.root w.cursor) ∧
    ∀ k, (key_events srv (es.take k) w).state.pointer_lock = 1 := by
  refine ⟨(key_events_lock srv es w hm hl hes).2.2.2, fun k => ?_⟩
  have := (key_events_lock srv (es.take k) w hm hl
    (fun e he => hes e (List.mem_of_mem_take he))).1
  rw [this, hl]

theorem key_events_config (srv : Server) (es : List xcb_generic_event_t)
    (e' : xcb_generic_event_t) (w : World) :
    (key_events srv es w).state.mode = w.state.mode ∧
    (matches_lock (key_events srv es w).state e' ↔ matches_lock w.state e') ∧
    (matches_unlock (key_events srv es w).state e' ↔ matches_unlock w.state e') := by
  induction es generalizing w with
  | nil => simp [key_events]
  | cons e es ih =>
    obtain ⟨c1, c2, c3⟩ := key_event_config srv e e' w
    obtain ⟨i1, i2, i3⟩ := ih (key_event srv e w)
    exact ⟨i1.trans c1, i2.trans c2, i3.trans c3⟩

/-- C10. In SWITCH mode with distinct bindings, after any list of key presses
`pointer_lock` is what it was when no press equals a binding, and otherwise is
1 exactly when the last press that equals a binding equals the lock binding,
0 exactly when it equals the unlock binding, whatever the server answers. -/
theorem switch_last_match_decides (srv : Server) (es : List xcb_generic_event_t) (w : World)
    (hm : w.state.mode = lock_mode_t.MODE_SWITCH)
    (hd : ¬ (w.state.modmask_lock = w.state.modmask_unlock ∧
             w.state.keycode_lock = w.state.keycode_unlock)) :
    ((es.filter (matches_binding w.state)).getLast? = none →
      (key_events srv es w).state.pointer_lock = w.state.pointer_lock) ∧
    (∀ e, (es.filter (matches_binding w.state)).getLast? = some e →
      ((key_events srv es w).state.pointer_lock = 1 ↔ matches_lock w.state e) ∧
      ((key_events srv es w).state.pointer_lock = 0 ↔ matches_unlock w.state e)) := by
  induction es using List.reverseRecOn with
  | nil => simp [key_events]
  | append_singleton es e ih =>
    obtain ⟨c1, c2, c3⟩ := key_events_config srv es e w
    have hm' : (key_events srv es w).state.mode = lock_mode_t.MODE_SWITCH := c1.trans hm
    have hk := key_event_cases srv e (key_events srv es w)
    rw [key_events_append]
    simp only [key_events]
    by_cases hl : matches_lock w.state e
    · have hu : ¬ matches_unlock w.state e := by
        intro hu
        apply hd
        exact ⟨hl.1.symm.trans hu.1, hl.2.symm.trans hu.2⟩
      rw [if_pos (c2.2 hl), if_pos hm'] at hk
      have hp : (key_event srv e (key_events srv es w)).state.pointer_lock = 1 := by
        rw [hk, (pointer_lock_frame srv _).1]
      have hf : (es ++ [e]).filter (matches_binding w.state)
          = es.filter (matches_binding w.state) ++ [e] := by
        simp [List.filter_append, List.filter_cons, matches_binding, hl]
      rw [hf, List.getLast?_concat, hp]
      refine ⟨fun h => by simp at h, fun e' he' => ?_⟩
      have : e = e' := by simpa using he'
      subst this
      simp [hl, hu]
    · by_cases hu : matches_unlock w.state e
      · rw [if_neg (fun h => hl (c2.1 h)), if_pos ⟨hm', c3.2 hu⟩] at hk
        have hp : (key_event srv e (key_events srv es w)).state.pointer_lock = 0 := by
          rw [hk, (pointer_unlock_frame srv _).1]
        have hf : (es ++ [e]).filter (matches_binding w.state)
            = es.filter (matches_binding w.state) ++ [e] := by
          simp [List.filter_append, List.filter_cons, matches_binding, hu]
        rw [hf, List.getLast?_concat, hp]
        refine ⟨fun h => by simp at h, fun e' he' => ?_⟩
        have : e = e' := by simpa using he'
        subst this
        simp [hl, hu]
      · rw [if_neg (fun h => hl (c2.1 h)), if_neg (fun h => hu (c3.1 h.2))] at hk
        have hp : (key_event srv e (key_events srv es w)).state.pointer_lock
            = (key_events srv es w).state.pointer_lock := by
          rw [hk]; rfl
        have hf : (es ++ [e]).filter (matches_binding w.state)
            = es.filter (matches_binding w.state) := by
          simp [List.filter_append, List.filter_cons, matches_binding, hl, hu]
        rw [hf, hp]
        exact ih

/-- C5. A fetched key-release event, whatever its payload, changes nothing but
the fetch count and the trace (by the fetch itself): the grab state is kept, no
request other than the fetch is sent and `loop` returns 0, so the loop goes on. -/
theorem key_release_ignored (srv : Server) (w : World) (ev : xcb_generic_event_t)
    (hf : srv.wait_for_event w.fetched = some ev)
    (hr : ev.response_type = XCB_KEY_RELEASE) :
    loop srv w = ({ w with trace := w.trace ++ [Act.wait_for_event],
                           fetched := w.fetched + 1 }, 0) ∧
    (loop srv w).1.state = w.state ∧
    requests (loop srv w).1.trace = requests w.trace ++ [Act.wait_for_event] := by
  have h : loop srv w = ({ w with trace := w.trace ++ [Act.wait_for_event],
                                  fetched := w.fetched + 1 }, 0) := by
    simp [loop, xcb_wait_for_event, hf, hr, XCB_KEY_RELEASE, XCB_KEY_PRESS]
  refine ⟨h, by rw [h], ?_⟩
  rw [h]
  simp [requests, Act.isRequest]

theorem grab_key_frame (srv : Server) (m k : Nat) (w : World) :
    (grab_key srv m k w).1.state = w.state ∧
    (grab_key srv m k w).1.root = w.root ∧
    (grab_key srv m k w).1.cursor = w.cursor ∧
    (grab_key srv m k w).1.fetched = w.fetched ∧
    requests (grab_key srv m k w).1.trace = requests w.trace ++ [Act.grab_key w.root m k] := by
  unfold grab_key xcb_request_check
  cases h : srv.request_check w.checked <;>
    simp [ERROR, xcberr_free, requests, Act.isRequest, h]

theorem init_cursor_frame (srv : Server) (w : World) :
    (init_cursor srv w).1.state = w.state ∧
    (init_cursor srv w).1.root = w.root ∧
    (init_cursor srv w).1.fetched = w.fetched ∧
    (init_cursor srv w).1.grabbed = w.grabbed := by
  unfold init_cursor create_cursor_pixmap create_pixmap_gc fill_cursor_pixmap create_cursor
    xcb_request_check xcb_generate_id xcberr_free ERROR
  cases h0 : srv.request_check w.checked <;>
  cases h1 : srv.request_check (w.checked + 1) <;>
  cases h2 : srv.request_check (w.checked + 1 + 1) <;>
  cases h3 : srv.request_check (w.checked + 1 + 1 + 1) <;>
  simp [h0, h1, h2, h3]

theorem init_cursor_ok (srv : Server) (w : World)
    (h : ∀ i < 4, srv.request_check (w.checked + i) = none) :
    init_cursor srv w =
      ({ w with trace := w.trace ++ cursor_pipeline srv w.root w.ids,
                cursor := srv.generate_id (w.ids + 2),
                xcberr := none,
                ids := w.ids + 3,
                checked := w.checked + 4 }, 0) := by
  have h0 := h 0 (by omega)
  have h1 := h 1 (by omega)
  have h2 := h 2 (by omega)
  have h3 := h 3 (by omega)
  simp only [Nat.add_zero] at h0
  simp [init_cursor, create_cursor_pixmap, create_pixmap_gc, fill_cursor_pixmap, create_cursor,
    xcb_request_check, xcb_generate_id, h0, h1, h2, h3, cursor_pipeline, Nat.add_assoc]

theorem init_cursor_fail (srv : Server) (w : World) (k : Nat) (hk : k < 4)
    (hprev : ∀ i < k, srv.request_check (w.checked + i) = none)
    (hfail : srv.request_check (w.checked + k) ≠ none) :
    (init_cursor srv w).2 = 1 ∧
    requests (init_cursor srv w).1.trace
      = requests w.trace ++ (cursor_pipeline srv w.root w.ids).take (k + 1) := by
  obtain ⟨c, hc⟩ := Option.ne_none_iff_exists'.1 hfail
  interval_cases k
  · simp only [Nat.add_zero] at hc
    simp [init_cursor, create_cursor_pixmap, xcb_request_check, xcb_generate_id, xcberr_free,
      ERROR, hc, cursor_pipeline, requests, Act.isRequest]
  · have h0 := hprev 0 (by omega)
    simp only [Nat.add_zero] at h0
    simp [init_cursor, create_cursor_pixmap, create_pixmap_gc, xcb_request_check,
      xcb_generate_id, xcberr_free, ERROR, h0, hc, cursor_pipeline, requests, Act.isRequest]
  · have h0 := hprev 0 (by omega)
    have h1 := hprev 1 (by omega)
    simp only [Nat.add_zero] at h0
    simp [init_cursor, create_cursor_pixmap, create_pixmap_gc, fill_cursor_pixmap,
      xcb_request_check, xcb_generate_id, xcberr_free, ERROR, h0, h1, hc, cursor_pipeline,
      requests, Act.isRequest, Nat.add_assoc]
  · have h0 := hprev 0 (by omega)
    have h1 := hprev 1 (by omega)
    have h2 := hprev 2 (by omega)
    simp only [Nat.add_zero] at h0
    simp [init_cursor, create_cursor_pixmap, create_pixmap_gc, fill_cursor_pixmap, create_cursor,
      xcb_request_check, xcb_generate_id, xcberr_free, ERROR, h0, h1, h2, hc, cursor_pipeline,
      requests, Act.isRequest, Nat.add_assoc]

theorem main_startup_eq (b : Bindings) (srv : Server) (w : World) :
    main_startup b srv w =
      if (init_cursor srv (configured b srv w)).2 ≠ 0 then
        ERROR "main" [] (init_cursor srv (configured b srv w)).1
      else
        let w4 := pointer_lock srv (init_cursor srv (configured b srv w)).1
        let w5 := (grab_key srv w4.state.modmask_lock w4.state.keycode_lock w4).1
        (if w5.state.mode = lock_mode_t.MODE_SWITCH then
          (grab_key srv w5.state.modmask_unlock w5.state.keycode_unlock w5).1
         else w5, 0) := by
  rfl

/-- The state on leaving `main_startup`: the configured bindings and mode, with
`pointer_lock = 1` when the loop is to be entered. -/
theorem main_startup_state (b : Bindings) (srv : Server) (w : World) :
    ((main_startup b srv w).1.state = (configured b srv w).state ∨
     (main_startup b srv w).1.state = { (configured b srv w).state with pointer_lock := 1 }) ∧
    (main_startup b srv w).1.fetched = w.fetched := by
  obtain ⟨i1, -, i3, -⟩ := init_cursor_frame srv (configured b srv w)
  rw [main_startup_eq]
  split_ifs with h
  · exact ⟨Or.inl i1, i3⟩
  · obtain ⟨l1, -, -, l4, -⟩ := pointer_lock_frame srv (init_cursor srv (configured b srv w)).1
    rw [i1] at l1
    dsimp only
    split_ifs
    · obtain ⟨g1, -, -, g4, -⟩ := grab_key_frame srv
        (pointer_lock srv (init_cursor srv (configured b srv w)).1).state.modmask_lock
        (pointer_lock srv (init_cursor srv (configured b srv w)).1).state.keycode_lock
        (pointer_lock srv (init_cursor srv (configured b srv w)).1)
      obtain ⟨k1, -, -, k4, -⟩ := grab_key_frame srv
        (grab_key srv
          (pointer_lock srv (init_cursor srv (configured b srv w)).1).state.modmask_lock
          (pointer_lock srv (init_cursor srv (configured b srv w)).1).state.keycode_lock
          (pointer_lock srv (init_cursor srv (configured b srv w)).1)).1.state.modmask_unlock
        (grab_key srv
          (pointer_lock srv (init_cursor srv (configured b srv w)).1).state.modmask_lock
          (pointer_lock srv (init_cursor srv (configured b srv w)).1).state.keycode_lock
          (pointer_lock srv (init_cursor srv (configured b srv w)).1)).1.state.keycode_unlock
        (grab_key srv
          (pointer_lock srv (init_cursor srv (configured b srv w)).1).state.modmask_lock
          (pointer_lock srv (init_cursor srv (configured b srv w)).1).state.keycode_lock
          (pointer_lock srv (init_cursor srv (configured b srv w)).1)).1
      exact ⟨Or.inr (k1.trans (g1.trans l1)), k4.trans (g4.trans (l4.trans i3))⟩
    · obtain ⟨g1, -, -, g4, -⟩ := grab_key_frame srv
        (pointer_lock srv (init_cursor srv (configured b srv w)).1).state.modmask_lock
        (pointer_lock srv (init_cursor srv (configured b srv w)).1).state.keycode_lock
        (pointer_lock srv (init_cursor srv (configured b srv w)).1)
      exact ⟨Or.inr (g1.trans l1), g4.trans (l4.trans i3)⟩

theorem main_startup_frame (b : Bindings) (srv : Server) (w : World) :
    (main_startup b srv w).1.state.mode = (configured b srv w).state.mode ∧
    (main_startup b srv w).1.state.modmask_lock = b.modmask_lock ∧
    (main_startup b srv w).1.state.keycode_lock = b.keycode_lock ∧
    (main_startup b srv w).1.state.modmask_unlock = b.modmask_unlock ∧
    (main_startup b srv w).1.state.keycode_unlock = b.keycode_unlock ∧
    (main_startup b srv w).1.fetched = w.fetched := by
  obtain ⟨hs, hf⟩ := main_startup_state b srv w
  rcases hs with hs | hs <;> rw [hs] <;> exact ⟨rfl, rfl, rfl, rfl, rfl, hf⟩

/-- C1. The mode that `main` computes at startup is TOGGLE exactly when the lock
and unlock bindings agree in both modmask and keycode, and SWITCH exactly when
they differ in either; the bindings are stored as given. -/
theorem mode_derivation (b : Bindings) (srv : Server) (w : World) :
    ((main_startup b srv w).1.state.mode = lock_mode_t.MODE_TOGGLE ↔
      (b.modmask_lock = b.modmask_unlock ∧ b.keycode_lock = b.keycode_unlock)) ∧
    ((main_startup b srv w).1.state.mode = lock_mode_t.MODE_SWITCH ↔
      (b.modmask_lock ≠ b.modmask_unlock ∨ b.keycode_lock ≠ b.keycode_unlock)) ∧
    (main_startup b srv w).1.state.modmask_lock = b.modmask_lock ∧
    (main_startup b srv w).1.state.keycode_lock = b.keycode_lock ∧
    (main_startup b srv w).1.state.modmask_unlock = b.modmask_unlock ∧
    (main_startup b srv w).1.state.keycode_unlock = b.keycode_unlock := by
  obtain ⟨f1, f2, f3, f4, f5, -⟩ := main_startup_frame b srv w
  refine ⟨?_, ?_, f2, f3, f4, f5⟩
  · rw [f1]
    simp only [configured]
    split_ifs with h
    · simp [h.1, h.2]
    · simp only [false_iff, reduceCtorEq]
      intro h'
      exact h ⟨h'.1.symm, h'.2.symm⟩
  · rw [f1]
    simp only [configured]
    split_ifs with h
    · simp [h.1, h.2]
    · simp only [true_iff]
      by_contra hc
      push_neg at hc
      exact h ⟨hc.1.symm, hc.2.symm⟩

theorem key_event_requests (srv : Server) (e : xcb_generic_event_t) (w : World) :
    ∃ rest, requests (key_event srv e w).trace = requests w.trace ++ rest := by
  rw [key_event_cases]
  split_ifs
  · exact ⟨_, (pointer_lock_frame srv w).2.2.2.2⟩
  · exact ⟨_, (pointer_unlock_frame srv w).2.2.2.2⟩
  · exact ⟨_, (pointer_lock_frame srv w).2.2.2.2⟩
  · exact ⟨_, (pointer_unlock_frame srv w).2.2.2.2⟩
  · exact ⟨[], by simp [INFO, requests, Act.isRequest]⟩

/-- Every call of `loop` starts with a fetch. -/
theorem loop_requests (srv : Server) (w : World) :
    ∃ rest, requests (loop srv w).1.trace
      = requests w.trace ++ Act.wait_for_event :: rest := by
  unfold loop xcb_wait_for_event
  cases h : srv.wait_for_event w.fetched with
  | none => exact ⟨[], by simp [ERROR, requests, Act.isRequest]⟩
  | some ev =>
    dsimp only
    split_ifs
    · obtain ⟨rest, hr⟩ := key_event_requests srv ev
        { w with trace := w.trace ++ [Act.wait_for_event], fetched := w.fetched + 1 }
      exact ⟨rest, by rw [hr]; simp [requests, Act.isRequest]⟩
    · exact ⟨[], by simp [requests, Act.isRequest]⟩
    · exact ⟨[], by simp [INFO, requests, Act.isRequest]⟩

theorem loop_fetched (srv : Server) (w : World) :
    (loop srv w).1.fetched = w.fetched + 1 := by
  unfold loop xcb_wait_for_event
  cases h : srv.wait_for_event w.fetched with
  | none => simp [ERROR]
  | some ev =>
    dsimp only
    split_ifs
    · rw [(key_event_frame srv ev _).2.2.2]
    · rfl
    · simp [INFO]

theorem loop_status (srv : Server) (w : World) :
    (srv.wait_for_event w.fetched ≠ none → (loop srv w).2 = 0) ∧
    (srv.wait_for_event w.fetched = none → (loop srv w).2 = 1) := by
  unfold loop xcb_wait_for_event
  cases h : srv.wait_for_event w.fetched <;> simp [ERROR]

theorem loop_iter_fetched (srv : Server) (n : Nat) (w : World) :
    (loop_iter srv n w).fetched = w.fetched + n := by
  induction n generalizing w with
  | zero => rfl
  | succ n ih =>
    simp only [loop_iter]
    rw [ih, loop_fetched]
    omega

theorem main_while_spec (srv : Server) (n : Nat) (w : World)
    (hev : ∀ i < n, srv.wait_for_event (w.fetched + i) ≠ none)
    (hfail : srv.wait_for_event (w.fetched + n) = none) (fuel : Nat) :
    (fuel ≤ n → main_while srv fuel w = none) ∧
    (n < fuel → main_while srv fuel w = some (loop srv (loop_iter srv n w)).1) := by
  induction n generalizing w fuel with
  | zero =>
    refine ⟨fun h => ?_, fun h => ?_⟩
    · have : fuel = 0 := by omega
      subst this
      rfl
    · obtain ⟨f, rfl⟩ : ∃ f, fuel = f + 1 := ⟨fuel - 1, by omega⟩
      have := (loop_status srv w).2 (by simpa using hfail)
      simp [main_while, loop_iter, this]
  | succ n ih =>
    have h0 : (loop srv w).2 = 0 := (loop_status srv w).1 (by simpa using hev 0 (by omega))
    have ih' := ih (loop srv w).1
      (by intro i hi; rw [loop_fetched]; have := hev (i + 1) (by omega); rwa [← Nat.add_assoc, Nat.add_right_comm] at this)
      (by rw [loop_fetched]; rwa [← Nat.add_assoc, Nat.add_right_comm] at hfail)
    cases fuel with
    | zero => exact ⟨fun _ => rfl, fun h => by omega⟩
    | succ f =>
      simp only [main_while, h0, if_true, loop_iter]
      exact ⟨fun h => (ih' f).1 (by omega), fun h => (ih' f).2 (by omega)⟩

/-- The part of `main` between `init_cursor` and the loop, from any world. -/
theorem startup_tail (srv : Server) (w3 w4 w5 w6 : World)
    (h4 : w4 = pointer_lock srv w3)
    (h5 : w5 = (grab_key srv w4.state.modmask_lock w4.state.keycode_lock w4).1)
    (h6 : w6 = if w5.state.mode = lock_mode_t.MODE_SWITCH then
                 (grab_key srv w5.state.modmask_unlock w5.state.keycode_unlock w5).1
               else w5) :
    w6.state = { w3.state with pointer_lock := 1 } ∧
    w6.fetched = w3.fetched ∧
    w6.cursor = w3.cursor ∧
    requests w6.trace = requests w3.trace ++
      [Act.grab_pointer w3.root w3.cursor,
       Act.grab_key w3.root w3.state.modmask_lock w3.state.keycode_lock] ++
      (if w3.state.mode = lock_mode_t.MODE_SWITCH then
         [Act.grab_key w3.root w3.state.modmask_unlock w3.state.keycode_unlock]
       else []) := by
  obtain ⟨l1, l2, l3, l4, l5⟩ := pointer_lock_frame srv w3
  rw [← h4] at l1 l2 l3 l4 l5
  obtain ⟨g1, g2, g3, g4, g5⟩ := grab_key_frame srv w4.state.modmask_lock w4.state.keycode_lock w4
  rw [← h5] at g1 g2 g3 g4 g5
  have s5 : w5.state = { w3.state with pointer_lock := 1 } := g1.trans l1
  have r5 : requests w5.trace = requests w3.trace ++
      [Act.grab_pointer w3.root w3.cursor,
       Act.grab_key w3.root w3.state.modmask_lock w3.state.keycode_lock] := by
    rw [g5, l5, l2, l1]; simp
  have m5 : w5.state.mode = w3.state.mode := by rw [s5]
  by_cases hm : w3.state.mode = lock_mode_t.MODE_SWITCH
  · rw [if_pos (m5.trans hm)] at h6
    obtain ⟨k1, -, k3, k4, k5⟩ :=
      grab_key_frame srv w5.state.modmask_unlock w5.state.keycode_unlock w5
    rw [← h6] at k1 k3 k4 k5
    refine ⟨k1.trans s5, k4.trans (g4.trans l4), k3.trans (g3.trans l3), ?_⟩
    rw [k5, r5, if_pos hm, g2, l2, s5]
  · rw [if_neg (fun h => hm (m5.symm.trans h))] at h6
    subst h6
    refine ⟨s5, g4.trans l4, g3.trans l3, ?_⟩
    rw [r5, if_neg hm, List.append_nil]

theorem requests_cursor_pipeline (srv : Server) (root ids : Nat) :
    requests (cursor_pipeline srv root ids) = cursor_pipeline srv root ids := by
  simp [requests, cursor_pipeline, Act.isRequest]

/-- C8. When the four steps of cursor creation succeed, `main` goes on to the
loop whatever the grab requests answer, having sent, in this order and after
the cursor pipeline: one grab-pointer request with the created cursor, one
grab-key request for the lock binding, and one for the unlock binding exactly
when the mode is SWITCH.  No event has been fetched yet, `pointer_lock` is 1,
and the next request is the first fetch. -/
theorem startup_sequence (b : Bindings) (srv : Server) (w : World)
    (hc : ∀ i < 4, srv.request_check (w.checked + i) = none) :
    (main_startup b srv w).2 = 0 ∧
    requests (main_startup b srv w).1.trace
      = requests w.trace ++ cursor_pipeline srv srv.root w.ids ++
        [Act.grab_pointer srv.root (srv.generate_id (w.ids + 2)),
         Act.grab_key srv.root b.modmask_lock b.keycode_lock] ++
        (if (main_startup b srv w).1.state.mode = lock_mode_t.MODE_SWITCH then
           [Act.grab_key srv.root b.modmask_unlock b.keycode_unlock]
         else []) ∧
    (main_startup b srv w).1.cursor = srv.generate_id (w.ids + 2) ∧
    (main_startup b srv w).1.state.pointer_lock = 1 ∧
    (main_startup b srv w).1.fetched = w.fetched ∧
    (∃ rest, requests (loop srv (main_startup b srv w).1).1.trace
      = requests (main_startup b srv w).1.trace ++ Act.wait_for_event :: rest) := by
  have hi := init_cursor_ok srv (configured b srv w) hc
  have hm := (main_startup_frame b srv w).1
  have he := main_startup_eq b srv w
  rw [if_neg (by rw [hi]; simp)] at he
  obtain ⟨t1, t2, t3, t4⟩ := startup_tail srv (init_cursor srv (configured b srv w)).1 _ _ _
    rfl rfl (congrArg Prod.fst he)
  refine ⟨by rw [he], ?_, ?_, by rw [t1], ?_, loop_requests srv _⟩
  · rw [t4, hm, hi]
    simp [requests_append, requests_cursor_pipeline, configured]
  · rw [t3, hi]
    rfl
  · rw [t2, hi]
    rfl

theorem init_cursor_status (srv : Server) (w : World) :
    (init_cursor srv w).2 = 0 ↔ ∀ i < 4, srv.request_check (w.checked + i) = none := by
  constructor
  · intro h
    by_contra hne
    have hcontra : ∀ k < 4, (∀ i < k, srv.request_check (w.checked + i) = none) →
        srv.request_check (w.checked + k) = none := by
      intro k hk hprev
      by_contra hf
      have := (init_cursor_fail srv w k hk hprev hf).1
      rw [h] at this
      exact absurd this (by decide)
    apply hne
    have h0 := hcontra 0 (by omega) (fun i hi => absurd hi (by omega))
    have h1 := hcontra 1 (by omega) (fun i hi => by
      have : i = 0 := by omega
      subst this; exact h0)
    have h2 := hcontra 2 (by omega) (fun i hi => by
      have : i = 0 ∨ i = 1 := by omega
      rcases this with rfl | rfl
      · exact h0
      · exact h1)
    have h3 := hcontra 3 (by omega) (fun i hi => by
      have : i = 0 ∨ i = 1 ∨ i = 2 := by omega
      rcases this with rfl | rfl | rfl
      · exact h0
      · exact h1
      · exact h2)
    intro i hi
    have : i = 0 ∨ i = 1 ∨ i = 2 ∨ i = 3 := by omega
    rcases this with rfl | rfl | rfl | rfl
    · exact h0
    · exact h1
    · exact h2
    · exact h3
  · intro h
    rw [init_cursor_ok srv w h]

/-- C9. The cursor pipeline sends create-pixmap, create-gc, fill-rectangle and
create-cursor in this order.  When step k+1 is the first to fail, the requests
sent are exactly the first k+1 of them, `init_cursor` returns nonzero, and
`main` returns 1 for every loop bound having sent nothing else: no grab-pointer,
no grab-key, no fetch.  For any server and world, `init_cursor` returns 0
exactly when all four steps succeed, and then it has sent all four requests. -/
theorem cursor_failure_fatal (b : Bindings) (srv : Server) (w : World) (fuel k : Nat)
    (hk : k < 4)
    (hprev : ∀ i < k, srv.request_check (w.checked + i) = none)
    (hfail : srv.request_check (w.checked + k) ≠ none) :
    (init_cursor srv w).2 ≠ 0 ∧
    requests (init_cursor srv w).1.trace
      = requests w.trace ++ (cursor_pipeline srv w.root w.ids).take (k + 1) ∧
    (∃ w1, main_with b srv fuel w = some (w1, 1) ∧
      requests w1.trace
        = requests w.trace ++ (cursor_pipeline srv srv.root w.ids).take (k + 1) ∧
      w1.fetched = w.fetched) ∧
    (∀ (srv0 : Server) (w0 : World),
      ((init_cursor srv0 w0).2 = 0 ↔ ∀ i < 4, srv0.request_check (w0.checked + i) = none) ∧
      ((init_cursor srv0 w0).2 = 0 →
        requests (init_cursor srv0 w0).1.trace
          = requests w0.trace ++ cursor_pipeline srv0 w0.root w0.ids)) := by
  obtain ⟨f1, f2⟩ := init_cursor_fail srv w k hk hprev hfail
  obtain ⟨g1, g2⟩ := init_cursor_fail srv (configured b srv w) k hk hprev hfail
  refine ⟨by rw [f1]; decide, f2, ?_, fun srv0 w0 => ⟨init_cursor_status srv0 w0, fun h => ?_⟩⟩
  · have he := main_startup_eq b srv w
    rw [if_pos (by rw [g1]; decide)] at he
    refine ⟨(ERROR "main" [] (init_cursor srv (configured b srv w)).1).1, ?_, ?_, ?_⟩
    · simp [main_with, he, ERROR]
    · simp only [ERROR, requests_append, g2]
      simp [requests, Act.isRequest, configured]
    · exact (init_cursor_frame srv (configured b srv w)).2.2.1
  · rw [init_cursor_ok srv0 w0 ((init_cursor_status srv0 w0).1 h)]
    simp [requests_append, requests_cursor_pipeline]

/-- What one call of `loop` does with a fetched event. -/
theorem loop_on_event (srv : Server) (w : World) (ev : xcb_generic_event_t)
    (h : srv.wait_for_event w.fetched = some ev) :
    loop srv w =
      (if ev.response_type = XCB_KEY_PRESS then
         key_event srv ev (xcb_wait_for_event srv w).1
       else if ev.response_type = XCB_KEY_RELEASE then
         (xcb_wait_for_event srv w).1
       else
         INFO "%d: Unexpected event: xcb_wait_for_event" [ev.response_type]
           (xcb_wait_for_event srv w).1, 0) := by
  simp [loop, xcb_wait_for_event, h]

/-- C7. When the next fetches deliver the events `es`, of any kind, and the fetch
after them fails, then whatever the requests answer: call number i + 1 of
`loop` fetches event number i, dispatches on it and returns 0, and the call
after the last event returns 1.  With a bound of at most `es.length` iterations
the loop is still running; with any larger bound it has stopped after exactly
these calls, and `main`, once past startup, returns 0. -/
theorem loop_until_fetch_failure (srv : Server) (w : World) (es : List xcb_generic_event_t)
    (hev : ∀ i, ∀ h : i < es.length, srv.wait_for_event (w.fetched + i) = some es[i])
    (hfail : srv.wait_for_event (w.fetched + es.length) = none) :
    (∀ i, ∀ h : i < es.length,
      (loop_iter srv i w).fetched = w.fetched + i ∧
      loop srv (loop_iter srv i w) =
        (if es[i].response_type = XCB_KEY_PRESS then
           key_event srv es[i] (xcb_wait_for_event srv (loop_iter srv i w)).1
         else if es[i].response_type = XCB_KEY_RELEASE then
           (xcb_wait_for_event srv (loop_iter srv i w)).1
         else
           INFO "%d: Unexpected event: xcb_wait_for_event" [es[i].response_type]
             (xcb_wait_for_event srv (loop_iter srv i w)).1, 0)) ∧
    (loop_iter srv es.length w).fetched = w.fetched + es.length ∧
    (loop srv (loop_iter srv es.length w)).2 = 1 ∧
    (∀ fuel ≤ es.length, main_while srv fuel w = none) ∧
    (∀ fuel, es.length < fuel →
      main_while srv fuel w = some (loop srv (loop_iter srv es.length w)).1) ∧
    (∀ b w0 fuel, main_startup b srv w0 = (w, 0) → es.length < fuel →
      main_with b srv fuel w0 = some ((loop srv (loop_iter srv es.length w)).1, 0)) := by
  have hne : ∀ i < es.length, srv.wait_for_event (w.fetched + i) ≠ none := by
    intro i hi
    rw [hev i hi]
    exact Option.some_ne_none _
  refine ⟨fun i hi => ⟨loop_iter_fetched srv i w, ?_⟩, loop_iter_fetched srv _ w, ?_,
    fun fuel h => (main_while_spec srv es.length w hne hfail fuel).1 h,
    fun fuel h => (main_while_spec srv es.length w hne hfail fuel).2 h,
    fun b w0 fuel hs h => ?_⟩
  · exact loop_on_event srv _ _ (by rw [loop_iter_fetched]; exact hev i hi)
  · exact (loop_status srv _).2 (by rw [loop_iter_fetched]; exact hfail)
  · simp [main_with, hs, (main_while_spec srv es.length w hne hfail fuel).2 h]

/-! ## The claims on concrete inputs -/

/-- Scenario 1 of the specification: from locked, two presses of super + m give
unlocked, then locked, here with every request failing. -/
theorem toggle_involution_witness :
    locked (key_event srv_bad press_m w_toggle) = false ∧
    locked (key_events srv_bad [press_m, press_m] w_toggle) = true ∧
    (key_events srv_bad [press_m, press_m] w_toggle).state = w_toggle.state :=
  have h := toggle_involution srv_bad w_toggle press_m press_m (by decide) (by decide) (by decide)
  ⟨h.1, h.2.1, h.2.2 (by decide)⟩

theorem nonmatching_keys_inert_witness :
    (key_events srv_ok [press_x, press_n, press_x] w_toggle).state = w_toggle.state ∧
    (key_events srv_ok [press_x, press_n, press_x] w_toggle).trace
      = [unexpected_keys press_x, unexpected_keys press_n, unexpected_keys press_x] :=
  have h := nonmatching_keys_inert srv_ok [press_x, press_n, press_x] w_toggle (by decide)
  ⟨h.2.1, congrArg World.trace h.1⟩

theorem key_release_ignored_witness :
    loop srv_ok { w_toggle with fetched := 1 }
      = ({ w_toggle with trace := [Act.wait_for_event], fetched := 2 }, 0) :=
  (key_release_ignored srv_ok { w_toggle with fetched := 1 } release_m rfl rfl).1

theorem switch_lock_reissued_witness :
    requests (key_events srv_bad [press_m, press_m, press_m] w_switch).trace
      = [Act.grab_pointer 7 102, Act.grab_pointer 7 102, Act.grab_pointer 7 102] ∧
    (key_events srv_bad [press_m, press_m] w_switch).state.pointer_lock = 1 :=
  have h := switch_lock_reissued srv_bad [press_m, press_m, press_m] w_switch
    (by decide) (by decide) (by decide)
  ⟨h.1, h.2 2⟩

/-- Scenario 2 of the specification: lock on super + m, unlock on super + n;
from locked, super + n then super + x leaves the pointer unlocked. -/
theorem switch_last_match_decides_witness :
    (key_events srv_ok [press_n, press_x] w_switch).state.pointer_lock = 0 :=
  ((switch_last_match_decides srv_ok [press_n, press_x] w_switch (by decide) (by decide)).2
    press_n (by decide)).2.2 (by decide)

theorem startup_sequence_witness :
    requests (main_startup Bindings.compiled srv_ok World.init).1.trace
      = [Act.create_pixmap 100 7, Act.create_gc 101 100, Act.poly_fill_rectangle 100 101,
         Act.create_cursor 102 100, Act.grab_pointer 7 102, Act.grab_key 7 64 58] ∧
    (main_startup Bindings.compiled srv_ok World.init).1.state.pointer_lock = 1 :=
  have h := startup_sequence Bindings.compiled srv_ok World.init (fun _ _ => rfl)
  ⟨h.2.1, h.2.2.2.1⟩

theorem cursor_failure_fatal_witness :
    (init_cursor srv_bad World.init).2 ≠ 0 ∧
    requests (init_cursor srv_bad World.init).1.trace
      = [Act.create_pixmap 100 0, Act.create_gc 101 100, Act.poly_fill_rectangle 100 101] :=
  have h := cursor_failure_fatal Bindings.compiled srv_bad World.init 0 2
    (by decide) (by decide) (by decide)
  ⟨h.1, h.2.1⟩

theorem loop_until_fetch_failure_witness :
    main_while srv_ok 5 (main_startup Bindings.compiled srv_ok World.init).1 = none ∧
    (main srv_ok 6).map Prod.snd = some 0 :=
  have h := loop_until_fetch_failure srv_ok
    (main_startup Bindings.compiled srv_ok World.init).1
    [press_m, release_m, press_m, { response_type := 12, detail := 0, state := 0 }, press_x]
    (by decide) (by decide)
  ⟨h.2.2.2.1 5 (Nat.le_refl 5),
   congrArg (Option.map Prod.snd)
     (h.2.2.2.2.2 Bindings.compiled World.init 6 rfl (by decide))⟩

end PointerLock
